import Mathlib

/-!
Verification of the `pulp_rpm` repository fragment: the yum download-event
listener (`plugins/pulp_rpm/plugins/importers/yum/listener.py`) and the
REST viewset actions (`pulp_rpm/app/viewsets.py`).

The listener is embedded as a state-passing function: each call consumes a
filesystem (a path-to-content association list), produces the list of
external invocations it performs (conduit calls, the file move, callbacks),
the resulting filesystem, and an `Except` result mirroring Python exception
propagation.  The externally supplied collaborators (sync conduit,
callbacks, the task queue, `RepositoryVersion.latest`) are parameters:
arbitrary fallible functions.
-/

namespace PulpRpm

/-! ## Filesystem model -/

/-- A filesystem: an association list from paths to file contents. -/
def FS := List (String × String)

def fsLookup (fs : FS) (p : String) : Option String :=
  match fs with
  | [] => none
  | (k, v) :: rest => if k = p then some v else fsLookup rest p

def fsErase (p : String) (fs : FS) : FS :=
  match fs with
  | [] => []
  | (k, v) :: rest => if k = p then fsErase p rest else (k, v) :: fsErase p rest

def fsInsert (p v : String) (fs : FS) : FS := (p, v) :: fs

theorem fsLookup_fsInsert_self (p v : String) (fs : FS) :
    fsLookup (fsInsert p v fs) p = some v := by
  simp [fsInsert, fsLookup]

theorem fsLookup_fsInsert_ne (p q v : String) (fs : FS) (h : p ≠ q) :
    fsLookup (fsInsert p v fs) q = fsLookup fs q := by
  simp [fsInsert, fsLookup, h]

theorem fsLookup_fsErase_self (p : String) (fs : FS) :
    fsLookup (fsErase p fs) p = none := by
  induction fs with
  | nil => simp [fsErase, fsLookup]
  | cons kv rest ih =>
    by_cases h : kv.1 = p
    · simpa [fsErase, h] using ih
    · simpa [fsErase, fsLookup, h] using ih

/-- `shutil.move src dst`: the file at `src` is removed from its original
path and its content reappears at `dst`; a missing source raises. -/
def shutil_move (src dst : String) (fs : FS) : Except String FS :=
  match fsLookup fs src with
  | none => .error "IOError: no such file or directory"
  | some v => .ok (fsInsert dst v (fsErase src fs))

/-! ## Data model of the listener -/

/-- Identity fields of one package, as carried by `report.data`
(the natural key of a `Package`: name/epoch/version/release/arch plus
checksum). -/
structure PackageInfo where
  name : String
  epoch : String
  version : String
  release : String
  arch : String
  checksum : String
deriving Repr, DecidableEq

/-- The transient derived model of one package
(a `models.from_package_info` result). -/
structure Model where
  TYPE : String
  unit_key : PackageInfo
  metadata : String
  relative_path : String
deriving Repr, DecidableEq

/-- Modelled from the spec: `models.from_package_info` lives in
`pulp_rpm.common.models`, which is not part of this fragment.  Per the
spec it derives "a transient, derived representation of one package's
identity/metadata" from the report's package info, so its identity
fields (`unit_key`) match the input data exactly. -/
def models.from_package_info (data : PackageInfo) : Model :=
  { TYPE := "rpm"
  , unit_key := data
  , metadata := data.checksum
  , relative_path := data.name }

/-- The external downloader's event payload: destination path, package
metadata, and (on failure) an error report. -/
structure DownloadReport where
  data : PackageInfo
  destination : String
  error_report : String
deriving Repr, DecidableEq

/-- The unit object returned by the conduit's `init_unit`. -/
structure ContentUnit where
  storage_path : String
deriving Repr, DecidableEq

/-- The externally supplied sync conduit: both operations may raise. -/
structure SyncConduit where
  init_unit : String → PackageInfo → String → String → Except String ContentUnit
  save_unit : ContentUnit → Except String Unit

/-- One external invocation performed by the listener. -/
inductive Event where
  | init_unit (ty : String) (key : PackageInfo) (meta : String) (rel : String)
  | move (src dst : String)
  | save_unit (u : ContentUnit)
  | success_cb (m : Model)
  | failure_cb (m : Model) (err : String)
deriving Repr, DecidableEq

/-- Outcome of one listener call: the invocations performed (in order),
the resulting filesystem, and normal return or a propagated exception. -/
structure RunResult where
  events : List Event
  fs : FS
  result : Except String Unit

/-- The listener object: conduit plus the two caller-supplied callbacks. -/
structure Listener where
  sync_conduit : SyncConduit
  success_callback : Model → Except String Unit
  failure_callback : Model → String → Except String Unit

/-- The exact `init_unit` call of `download_succeeded` (listener.py line
40): `self.sync_conduit.init_unit(model.TYPE, model.unit_key,
model.metadata, model.relative_path)` with `model =
models.from_package_info(report.data)`. -/
def Listener.call_init_unit (l : Listener) (report : DownloadReport) :
    Except String ContentUnit :=
  l.sync_conduit.init_unit (models.from_package_info report.data).TYPE
    (models.from_package_info report.data).unit_key
    (models.from_package_info report.data).metadata
    (models.from_package_info report.data).relative_path

/-- The trace entry recording that `init_unit` call. -/
def initEvent (report : DownloadReport) : Event :=
  .init_unit (models.from_package_info report.data).TYPE
    (models.from_package_info report.data).unit_key
    (models.from_package_info report.data).metadata
    (models.from_package_info report.data).relative_path

/-- `Listener.download_succeeded(report)`: derive the model, `init_unit`,
move the downloaded file to the unit's storage path, `save_unit`, then the
success callback.  Any step's exception propagates and stops the rest. -/
def Listener.download_succeeded (l : Listener) (report : DownloadReport)
    (fs : FS) : RunResult :=
  match l.call_init_unit report with
  | .error e => ⟨[initEvent report], fs, .error e⟩
  | .ok u =>
    match shutil_move report.destination u.storage_path fs with
    | .error e =>
      ⟨[initEvent report, .move report.destination u.storage_path],
        fs, .error e⟩
    | .ok fs2 =>
      match l.sync_conduit.save_unit u with
      | .error e =>
        ⟨[initEvent report, .move report.destination u.storage_path,
          .save_unit u], fs2, .error e⟩
      | .ok _ =>
        match l.success_callback (models.from_package_info report.data) with
        | .error e =>
          ⟨[initEvent report, .move report.destination u.storage_path,
            .save_unit u,
            .success_cb (models.from_package_info report.data)],
            fs2, .error e⟩
        | .ok _ =>
          ⟨[initEvent report, .move report.destination u.storage_path,
            .save_unit u,
            .success_cb (models.from_package_info report.data)],
            fs2, .ok ()⟩

/-- `Listener.download_failed(report)`: derive the model and invoke the
failure callback with it and `report.error_report`.  No file or conduit
operation is performed; an exception from the callback propagates. -/
def Listener.download_failed (l : Listener) (report : DownloadReport)
    (fs : FS) : RunResult :=
  ⟨[.failure_cb (models.from_package_info report.data) report.error_report],
    fs,
    l.failure_callback (models.from_package_info report.data)
      report.error_report⟩

/-! ## Viewset actions (`pulp_rpm/app/viewsets.py`)

The sync and publish detail routes are embedded as functions from the
validated request data (serializer validation is the framework's; a failed
validation raises, modelled as the `Except.error` input branch) to the
list of tasks handed to `enqueue_with_reservation` and the HTTP response.
-/

structure RpmRemote where
  pk : Nat
deriving Repr, DecidableEq

structure RpmPublisher where
  pk : Nat
deriving Repr, DecidableEq

structure Repository where
  pk : Nat
deriving Repr, DecidableEq

structure RepositoryVersion where
  pk : Nat
  repository : Repository
deriving Repr, DecidableEq

/-- One task handed to `enqueue_with_reservation`: the task function, the
reserved resources, and the keyword arguments. -/
structure EnqueuedTask where
  task_name : String
  resources : List Nat
  kwargs : List (String × Nat)
deriving Repr, DecidableEq

/-- The HTTP response of an action route. -/
inductive ActionResponse where
  | operationPostponed (result : EnqueuedTask)
deriving Repr, DecidableEq

/-- Validated data of `RepositorySyncURLSerializer`. -/
structure RepositorySyncURLData where
  repository : Repository
deriving Repr, DecidableEq

/-- Validated data of `RepositoryPublishURLSerializer`: the serializer
enforces that a version or a repository is supplied. -/
structure RepositoryPublishURLData where
  repository_version : Option RepositoryVersion
  repository : Option Repository
deriving Repr, DecidableEq

/-- `RpmRemoteViewSet.sync`: validate, then enqueue one `synchronize` task
reserving the repository and the remote, and answer with an
`OperationPostponedResponse` wrapping the enqueued task's result. -/
def RpmRemoteViewSet.sync (remote : RpmRemote)
    (validation : Except String RepositorySyncURLData) :
    List EnqueuedTask × Except String ActionResponse :=
  match validation with
  | .error e => ([], .error e)
  | .ok vdata =>
    let repository := vdata.repository
    let result : EnqueuedTask :=
      { task_name := "synchronize"
      , resources := [repository.pk, remote.pk]
      , kwargs := [("remote_pk", remote.pk), ("repository_pk", repository.pk)] }
    ([result], .ok (.operationPostponed result))

/-- The repository version the publish route settles on: the explicitly
supplied one, otherwise `RepositoryVersion.latest` of the supplied
repository.  `latest` belongs to the external platform and is a
parameter; `none` models its "no version exists" result, on which the
route's subsequent attribute access raises. -/
def resolve_repository_version
    (latest : Repository → Option RepositoryVersion)
    (vdata : RepositoryPublishURLData) : Option RepositoryVersion :=
  match vdata.repository_version with
  | some v => some v
  | none =>
    match vdata.repository with
    | some r => latest r
    | none => none

/-- `RpmPublisherViewSet.publish`: validate, resolve the repository
version (explicit, or latest of the repository), then enqueue one
`publish` task reserving the version's repository and the publisher, and
answer with an `OperationPostponedResponse` wrapping the task result. -/
def RpmPublisherViewSet.publish (publisher : RpmPublisher)
    (latest : Repository → Option RepositoryVersion)
    (validation : Except String RepositoryPublishURLData) :
    List EnqueuedTask × Except String ActionResponse :=
  match validation with
  | .error e => ([], .error e)
  | .ok vdata =>
    match resolve_repository_version latest vdata with
    | none => ([], .error "AttributeError")
    | some repository_version =>
      let result : EnqueuedTask :=
        { task_name := "publish"
        , resources := [repository_version.repository.pk, publisher.pk]
        , kwargs := [("publisher_pk", publisher.pk),
                     ("repository_version_pk", repository_version.pk)] }
      ([result], .ok (.operationPostponed result))

/-! ## Concrete fixtures for witnesses -/

def pkg0 : PackageInfo :=
  { name := "bear", epoch := "0", version := "4.1", release := "1"
  , arch := "noarch", checksum := "abc123" }

def report0 : DownloadReport :=
  { data := pkg0, destination := "/tmp/working/bear-4.1-1.noarch.rpm"
  , error_report := "404 not found" }

def fs0 : FS := [("/tmp/working/bear-4.1-1.noarch.rpm", "RPMBYTES")]

/-- A conduit on which every operation succeeds. -/
def okConduit : SyncConduit :=
  { init_unit := fun _ _ _ rel => .ok ⟨"/var/lib/pulp/content/" ++ rel⟩
  , save_unit := fun _ => .ok () }

def okListener : Listener :=
  { sync_conduit := okConduit
  , success_callback := fun _ => .ok ()
  , failure_callback := fun _ _ => .ok () }

/-- A conduit whose `save_unit` raises. -/
def saveFailConduit : SyncConduit :=
  { init_unit := fun _ _ _ rel => .ok ⟨"/var/lib/pulp/content/" ++ rel⟩
  , save_unit := fun _ => .error "DatabaseError" }

def saveFailListener : Listener :=
  { sync_conduit := saveFailConduit
  , success_callback := fun _ => .ok ()
  , failure_callback := fun _ _ => .ok () }

def repo0 : Repository := { pk := 7 }

def version3 : RepositoryVersion := { pk := 3, repository := repo0 }

def version9 : RepositoryVersion := { pk := 9, repository := repo0 }

/-- A stand-in for the platform's `RepositoryVersion.latest`. -/
def latest0 : Repository → Option RepositoryVersion :=
  fun r => if r = repo0 then some version9 else none

/-! ## Claim theorems -/

/-- C1: for every report, a call to `Listener.download_succeeded(report)`
that returns normally invokes the conduit's `init_unit`, then `save_unit`,
then the success callback, in that order and each exactly once: its
invocation trace is exactly the init call, the move, the save, and the
success callback. -/
theorem download_succeeded_invocation_order (l : Listener)
    (report : DownloadReport) (fs : FS)
    (h : (l.download_succeeded report fs).result = .ok ()) :
    ∃ u : ContentUnit,
      (l.download_succeeded report fs).events =
        [initEvent report,
         Event.move report.destination u.storage_path,
         Event.save_unit u,
         Event.success_cb (models.from_package_info report.data)] := by
  unfold Listener.download_succeeded at h ⊢
  cases hinit : l.call_init_unit report with
  | error e => simp [hinit] at h
  | ok u =>
    simp only [hinit] at h ⊢
    cases hmove : shutil_move report.destination u.storage_path fs with
    | error e => simp [hmove] at h
    | ok fs2 =>
      simp only [hmove] at h ⊢
      cases hsave : l.sync_conduit.save_unit u with
      | error e => simp [hsave] at h
      | ok w =>
        simp only [hsave] at h ⊢
        cases hcb : l.success_callback (models.from_package_info report.data) with
        | error e => simp [hcb] at h
        | ok w2 => exact ⟨u, by simp [hcb]⟩

/-- C1 witness: on an always-succeeding environment with a concrete
report, the call returns normally and the trace is exactly init, move,
save, success in order. -/
theorem download_succeeded_invocation_order_witness :
    ∃ u : ContentUnit,
      (okListener.download_succeeded report0 fs0).events =
        [initEvent report0,
         Event.move report0.destination u.storage_path,
         Event.save_unit u,
         Event.success_cb (models.from_package_info report0.data)] :=
  download_succeeded_invocation_order okListener report0 fs0 rfl

/-- Helper: full description of a normally returning `download_succeeded`
run — the unit `init_unit` returned, the content found at the report's
destination, the resulting filesystem, and the trace. -/
theorem download_succeeded_ok_run (l : Listener) (report : DownloadReport)
    (fs : FS) (h : (l.download_succeeded report fs).result = .ok ()) :
    ∃ (u : ContentUnit) (v : String),
      l.call_init_unit report = .ok u ∧
      fsLookup fs report.destination = some v ∧
      (l.download_succeeded report fs).fs =
        fsInsert u.storage_path v (fsErase report.destination fs) ∧
      (l.download_succeeded report fs).events =
        [initEvent report,
         Event.move report.destination u.storage_path,
         Event.save_unit u,
         Event.success_cb (models.from_package_info report.data)] := by
  unfold Listener.download_succeeded at h ⊢
  cases hinit : l.call_init_unit report with
  | error e => simp [hinit] at h
  | ok u =>
    simp only [hinit] at h ⊢
    cases hmove : shutil_move report.destination u.storage_path fs with
    | error e => simp [hmove] at h
    | ok fs2 =>
      simp only [hmove] at h ⊢
      unfold shutil_move at hmove
      cases hlook : fsLookup fs report.destination with
      | none => simp [hlook] at hmove
      | some v =>
        simp only [hlook] at hmove
        cases hsave : l.sync_conduit.save_unit u with
        | error e => simp [hsave] at h
        | ok w =>
          simp only [hsave] at h ⊢
          cases hcb : l.success_callback (models.from_package_info report.data) with
          | error e => simp [hcb] at h
          | ok w2 =>
            refine ⟨u, v, rfl, rfl, ?_, by simp [hcb]⟩
            simp only [hcb]
            exact (Except.ok.inj hmove).symm

/-- C2: after a normally returning `download_succeeded` call, the move
targeted exactly the storage path of the unit `init_unit` returned, and
the file content now found at that storage path is the content that was
at `report.destination`. -/
theorem file_ends_up_at_storage_path (l : Listener) (report : DownloadReport)
    (fs : FS) (h : (l.download_succeeded report fs).result = .ok ()) :
    ∃ u : ContentUnit,
      l.call_init_unit report = .ok u ∧
      Event.move report.destination u.storage_path ∈
        (l.download_succeeded report fs).events ∧
      fsLookup (l.download_succeeded report fs).fs u.storage_path =
        fsLookup fs report.destination := by
  obtain ⟨u, v, hinit, hlook, hfs, hev⟩ :=
    download_succeeded_ok_run l report fs h
  refine ⟨u, hinit, by rw [hev]; simp, ?_⟩
  rw [hfs, fsLookup_fsInsert_self, hlook]

/-- C2 witness: on a concrete always-succeeding environment the unit's
storage path holds the downloaded bytes after the call. -/
theorem file_ends_up_at_storage_path_witness :
    ∃ u : ContentUnit,
      okListener.call_init_unit report0 = .ok u ∧
      Event.move report0.destination u.storage_path ∈
        (okListener.download_succeeded report0 fs0).events ∧
      fsLookup (okListener.download_succeeded report0 fs0).fs u.storage_path =
        fsLookup fs0 report0.destination :=
  file_ends_up_at_storage_path okListener report0 fs0 rfl

/-- C3: `download_failed` performs exactly one external invocation — the
failure callback, applied to the derived model and `report.error_report`;
in particular it never invokes the conduit's `init_unit` or `save_unit`. -/
theorem download_failed_no_persistence (l : Listener)
    (report : DownloadReport) (fs : FS) :
    (l.download_failed report fs).events =
      [Event.failure_cb (models.from_package_info report.data)
        report.error_report] := rfl

/-- C4: any model handed to the success callback by `download_succeeded`
and any model handed to the failure callback by `download_failed` is
`models.from_package_info report.data`, whose identity fields equal
`report.data`. -/
theorem callbacks_receive_model_of_report_data (l : Listener)
    (report : DownloadReport) (fs : FS) :
    (∀ m, Event.success_cb m ∈ (l.download_succeeded report fs).events →
      m = models.from_package_info report.data ∧ m.unit_key = report.data) ∧
    (∀ m err,
      Event.failure_cb m err ∈ (l.download_failed report fs).events →
      m = models.from_package_info report.data ∧ m.unit_key = report.data) := by
  constructor
  · intro m hm
    unfold Listener.download_succeeded at hm
    cases hinit : l.call_init_unit report with
    | error e => simp [hinit, initEvent] at hm
    | ok u =>
      simp only [hinit] at hm
      cases hmove : shutil_move report.destination u.storage_path fs with
      | error e => simp [hmove, initEvent] at hm
      | ok fs2 =>
        simp only [hmove] at hm
        cases hsave : l.sync_conduit.save_unit u with
        | error e => simp [hsave, initEvent] at hm
        | ok w =>
          simp only [hsave] at hm
          cases hcb : l.success_callback (models.from_package_info report.data) with
          | error e =>
            simp [hcb, initEvent] at hm
            exact ⟨hm, by simp [hm, models.from_package_info]⟩
          | ok w2 =>
            simp [hcb, initEvent] at hm
            exact ⟨hm, by simp [hm, models.from_package_info]⟩
  · intro m err hm
    simp [Listener.download_failed] at hm
    exact ⟨hm.1, by simp [hm.1, models.from_package_info]⟩

/-- C4 witness: on a concrete run the success callback receives the model
derived from the report's data, whose identity fields equal that data. -/
theorem callbacks_receive_model_of_report_data_witness :
    models.from_package_info report0.data =
      models.from_package_info report0.data ∧
    (models.from_package_info report0.data).unit_key = report0.data :=
  (callbacks_receive_model_of_report_data okListener report0 fs0).1
    (models.from_package_info report0.data) (by decide)

/-- C9: `download_failed` leaves the filesystem untouched; in particular
whatever is (or is not) at `report.destination` before the call is still
there after it. -/
theorem download_failed_leaves_file_in_place (l : Listener)
    (report : DownloadReport) (fs : FS) :
    (l.download_failed report fs).fs = fs ∧
    fsLookup (l.download_failed report fs).fs report.destination =
      fsLookup fs report.destination := ⟨rfl, rfl⟩

/-- A conduit whose `init_unit` raises. -/
def initFailConduit : SyncConduit :=
  { init_unit := fun _ _ _ _ => .error "InitError"
  , save_unit := fun _ => .ok () }

def initFailListener : Listener :=
  { sync_conduit := initFailConduit
  , success_callback := fun _ => .ok ()
  , failure_callback := fun _ _ => .ok () }

/-- C5: neither listener method catches exceptions.  Whichever step of
`download_succeeded` raises first (`init_unit`, the move, `save_unit`, or
the success callback), that error is the call's own outcome; likewise a
raising failure callback is `download_failed`'s outcome — while the
download failure itself is packaged as the failure callback's argument,
not raised. -/
theorem exceptions_propagate (l : Listener) (report : DownloadReport)
    (fs : FS) :
    (∀ e, l.call_init_unit report = .error e →
      (l.download_succeeded report fs).result = .error e) ∧
    (∀ u e, l.call_init_unit report = .ok u →
      shutil_move report.destination u.storage_path fs = .error e →
      (l.download_succeeded report fs).result = .error e) ∧
    (∀ u fs2 e, l.call_init_unit report = .ok u →
      shutil_move report.destination u.storage_path fs = .ok fs2 →
      l.sync_conduit.save_unit u = .error e →
      (l.download_succeeded report fs).result = .error e) ∧
    (∀ u fs2 e, l.call_init_unit report = .ok u →
      shutil_move report.destination u.storage_path fs = .ok fs2 →
      l.sync_conduit.save_unit u = .ok () →
      l.success_callback (models.from_package_info report.data) = .error e →
      (l.download_succeeded report fs).result = .error e) ∧
    (∀ e, l.failure_callback (models.from_package_info report.data)
        report.error_report = .error e →
      (l.download_failed report fs).result = .error e) ∧
    ((l.download_failed report fs).events =
      [Event.failure_cb (models.from_package_info report.data)
        report.error_report]) := by
  refine ⟨fun e h1 => ?_, fun u e h1 h2 => ?_, fun u fs2 e h1 h2 h3 => ?_,
    fun u fs2 e h1 h2 h3 h4 => ?_, fun e h1 => ?_, rfl⟩
  · unfold Listener.download_succeeded; simp [h1]
  · unfold Listener.download_succeeded; simp [h1, h2]
  · unfold Listener.download_succeeded; simp [h1, h2, h3]
  · unfold Listener.download_succeeded; simp [h1, h2, h3, h4]
  · unfold Listener.download_failed; simp [h1]

/-- C5 witness: with a conduit whose `init_unit` raises, the call's
outcome is that very error. -/
theorem exceptions_propagate_witness :
    (initFailListener.download_succeeded report0 fs0).result =
      .error "InitError" :=
  (exceptions_propagate initFailListener report0 fs0).1 "InitError" rfl

/-- C6: no rollback.  If `save_unit` raises after the move completed, the
call raises that error, the file content sits at the unit's storage path,
nothing is at `report.destination` any more, and the success callback was
never invoked. -/
theorem no_rollback_on_save_failure (l : Listener) (report : DownloadReport)
    (fs : FS) (u : ContentUnit) (fs2 : FS) (e : String)
    (hinit : l.call_init_unit report = .ok u)
    (hmove : shutil_move report.destination u.storage_path fs = .ok fs2)
    (hsave : l.sync_conduit.save_unit u = .error e)
    (hne : u.storage_path ≠ report.destination) :
    (l.download_succeeded report fs).result = .error e ∧
    fsLookup (l.download_succeeded report fs).fs u.storage_path =
      fsLookup fs report.destination ∧
    fsLookup (l.download_succeeded report fs).fs report.destination = none ∧
    Event.success_cb (models.from_package_info report.data) ∉
      (l.download_succeeded report fs).events := by
  have hrun : l.download_succeeded report fs =
      ⟨[initEvent report, .move report.destination u.storage_path,
        .save_unit u], fs2, .error e⟩ := by
    unfold Listener.download_succeeded
    simp [hinit, hmove, hsave]
  unfold shutil_move at hmove
  cases hlook : fsLookup fs report.destination with
  | none => simp [hlook] at hmove
  | some v =>
    simp only [hlook] at hmove
    have hfs2 : fs2 =
        fsInsert u.storage_path v (fsErase report.destination fs) :=
      (Except.ok.inj hmove).symm
    rw [hrun]
    refine ⟨rfl, ?_, ?_, ?_⟩
    · show fsLookup fs2 u.storage_path = some v
      rw [hfs2, fsLookup_fsInsert_self]
    · show fsLookup fs2 report.destination = none
      rw [hfs2, fsLookup_fsInsert_ne _ _ _ _ hne, fsLookup_fsErase_self]
    · simp [initEvent]

/-- C6 witness: on a concrete run whose `save_unit` raises, the file has
been relocated and the success callback does not appear in the trace. -/
theorem no_rollback_on_save_failure_witness :
    (saveFailListener.download_succeeded report0 fs0).result =
      .error "DatabaseError" ∧
    fsLookup (saveFailListener.download_succeeded report0 fs0).fs
      "/var/lib/pulp/content/bear" = fsLookup fs0 report0.destination ∧
    fsLookup (saveFailListener.download_succeeded report0 fs0).fs
      report0.destination = none ∧
    Event.success_cb (models.from_package_info report0.data) ∉
      (saveFailListener.download_succeeded report0 fs0).events :=
  no_rollback_on_save_failure saveFailListener report0 fs0
    ⟨"/var/lib/pulp/content/bear"⟩
    [("/var/lib/pulp/content/bear", "RPMBYTES")] "DatabaseError"
    rfl rfl rfl (by decide)

/-- C7: the relocation is a move, not a copy.  After a normally returning
`download_succeeded` call whose unit's storage path differs from the
report's destination, nothing remains at `report.destination`, and the
content that was there now sits at the unit's storage path. -/
theorem move_not_copy (l : Listener) (report : DownloadReport) (fs : FS)
    (u : ContentUnit)
    (h : (l.download_succeeded report fs).result = .ok ())
    (hinit : l.call_init_unit report = .ok u)
    (hne : u.storage_path ≠ report.destination) :
    fsLookup (l.download_succeeded report fs).fs report.destination = none ∧
    fsLookup (l.download_succeeded report fs).fs u.storage_path =
      fsLookup fs report.destination := by
  obtain ⟨u2, v, hinit2, hlook, hfs, hev⟩ :=
    download_succeeded_ok_run l report fs h
  have hu : u2 = u := by
    rw [hinit] at hinit2
    exact (Except.ok.inj hinit2).symm
  subst hu
  constructor
  · rw [hfs, fsLookup_fsInsert_ne _ _ _ _ hne, fsLookup_fsErase_self]
  · rw [hfs, fsLookup_fsInsert_self, hlook]

/-- C7 witness: on a concrete successful run the source path is empty
afterwards and the bytes sit at the unit's storage path. -/
theorem move_not_copy_witness :
    fsLookup (okListener.download_succeeded report0 fs0).fs
      report0.destination = none ∧
    fsLookup (okListener.download_succeeded report0 fs0).fs
      "/var/lib/pulp/content/bear" = fsLookup fs0 report0.destination :=
  move_not_copy okListener report0 fs0 ⟨"/var/lib/pulp/content/bear"⟩
    rfl rfl (by decide)

/-- C8: on a validly deserialized request, the sync route and (when the
repository version resolves) the publish route each hand exactly one task
to `enqueue_with_reservation` and answer with an
`OperationPostponedResponse` wrapping that task's result. -/
theorem actions_enqueue_one_task (remote : RpmRemote)
    (publisher : RpmPublisher)
    (latest : Repository → Option RepositoryVersion)
    (sdata : RepositorySyncURLData) (pdata : RepositoryPublishURLData)
    (v : RepositoryVersion)
    (hres : resolve_repository_version latest pdata = some v) :
    (∃ t, RpmRemoteViewSet.sync remote (.ok sdata) =
      ([t], .ok (.operationPostponed t))) ∧
    (∃ t, RpmPublisherViewSet.publish publisher latest (.ok pdata) =
      ([t], .ok (.operationPostponed t))) := by
  constructor
  · exact ⟨_, rfl⟩
  · refine ⟨{ task_name := "publish"
            , resources := [v.repository.pk, publisher.pk]
            , kwargs := [("publisher_pk", publisher.pk)
                        , ("repository_version_pk", v.pk)] }, ?_⟩
    unfold RpmPublisherViewSet.publish
    simp [hres]

/-- C8 witness: a concrete sync request and a concrete publish request
each enqueue one task wrapped in the postponed-operation response. -/
theorem actions_enqueue_one_task_witness :
    (∃ t, RpmRemoteViewSet.sync ⟨1⟩ (.ok ⟨repo0⟩) =
      ([t], .ok (.operationPostponed t))) ∧
    (∃ t, RpmPublisherViewSet.publish ⟨2⟩ latest0 (.ok ⟨some version3, none⟩) =
      ([t], .ok (.operationPostponed t))) :=
  actions_enqueue_one_task ⟨1⟩ ⟨2⟩ latest0 ⟨repo0⟩ ⟨some version3, none⟩
    version3 rfl

/-- C10: the publish route uses an explicitly supplied repository version
unchanged; with no version supplied it uses `RepositoryVersion.latest` of
the supplied repository.  Either way the enqueued task's
`repository_version_pk` is that version's pk. -/
theorem publish_version_resolution (publisher : RpmPublisher)
    (latest : Repository → Option RepositoryVersion)
    (pdata : RepositoryPublishURLData) :
    (∀ v, pdata.repository_version = some v →
      resolve_repository_version latest pdata = some v ∧
      ∃ t, RpmPublisherViewSet.publish publisher latest (.ok pdata) =
          ([t], .ok (.operationPostponed t)) ∧
        t.kwargs = [("publisher_pk", publisher.pk),
                    ("repository_version_pk", v.pk)]) ∧
    (∀ r v, pdata.repository_version = none → pdata.repository = some r →
      latest r = some v →
      resolve_repository_version latest pdata = some v ∧
      ∃ t, RpmPublisherViewSet.publish publisher latest (.ok pdata) =
          ([t], .ok (.operationPostponed t)) ∧
        t.kwargs = [("publisher_pk", publisher.pk),
                    ("repository_version_pk", v.pk)]) := by
  constructor
  · intro v hv
    have hres : resolve_repository_version latest pdata = some v := by
      unfold resolve_repository_version
      simp only [hv]
    refine ⟨hres, ⟨{ task_name := "publish"
                   , resources := [v.repository.pk, publisher.pk]
                   , kwargs := [("publisher_pk", publisher.pk)
                               , ("repository_version_pk", v.pk)] }, ?_, rfl⟩⟩
    unfold RpmPublisherViewSet.publish
    simp [hres]
  · intro r v hv hr hlatest
    have hres : resolve_repository_version latest pdata = some v := by
      unfold resolve_repository_version
      simp only [hv, hr, hlatest]
    refine ⟨hres, ⟨{ task_name := "publish"
                   , resources := [v.repository.pk, publisher.pk]
                   , kwargs := [("publisher_pk", publisher.pk)
                               , ("repository_version_pk", v.pk)] }, ?_, rfl⟩⟩
    unfold RpmPublisherViewSet.publish
    simp [hres]

/-- C10 witness: with no version in the validated data, a concrete publish
request resolves to the latest version of the supplied repository and
enqueues it. -/
theorem publish_version_resolution_witness :
    resolve_repository_version latest0 ⟨none, some repo0⟩ = some version9 ∧
    ∃ t, RpmPublisherViewSet.publish ⟨2⟩ latest0 (.ok ⟨none, some repo0⟩) =
        ([t], .ok (.operationPostponed t)) ∧
      t.kwargs = [("publisher_pk", 2), ("repository_version_pk", 9)] :=
  (publish_version_resolution ⟨2⟩ latest0 ⟨none, some repo0⟩).2 repo0 version9
    rfl rfl (by decide)

end PulpRpm
